import Mathlib

/-!
Shallow embedding of the maubot-characterai plugin (files `cai/cai.py`,
`cai/caimessage.py`, `cai/utils.py`, and the earlier revision `cai.py`).

Conventions of the embedding:
* Python strings are Lean `String`s (with `List Char` helpers where needed).
* Python `str.casefold` is a Unicode case-folding routine supplied by the
  Python runtime; it is kept abstract here and passed as a `casefold`
  parameter to every definition that uses it.
* Parsed `datetime` instants are modelled as `Int` values (instants form a
  total order; nothing in the verified code depends on any other structure).
  The rendering `utils.pretty_utc_str` is likewise passed as an abstract
  `pretty : Int → String` parameter.
* Fallible dictionary/index accesses are modelled with `Option`: a `none`
  result stands for a raised Python exception (`KeyError` / `IndexError`).
* Async methods of the plugin are modelled as pure functions of their inputs,
  with the results of awaited collaborator calls (`_is_room_dm`,
  `client.get_event`, the upstream HTTP responses) passed in as arguments.
-/

/-- Python substring test `needle in hay` (`str.__contains__`), over the
character lists of the two strings. -/
def pyIn (needle hay : List Char) : Bool :=
  needle.isPrefixOf hay ||
    match hay with
    | [] => false
    | _ :: t => pyIn needle t

/-- Python `str.startswith(p)` over the character lists of the strings. -/
def pyStartsWith (s p : String) : Bool :=
  p.data.isPrefixOf s.data

/-- Python `str.strip()` with no argument: drop leading and trailing
whitespace. -/
def pyStrip (s : String) : String :=
  ⟨((s.data.dropWhile Char.isWhitespace).reverse.dropWhile Char.isWhitespace).reverse⟩

/-- The configuration keys of the plugin that the modelled operations read
(`Config.do_update` in `cai/cai.py`). `trigger` is `Option String` because the
config may not be loaded yet (the property guards against `None`); the
tri-state keys (`group_mode`) are nullable booleans exactly as in the source. -/
structure Config where
  trigger : Option String
  allowed_users : List String
  always_reply_in_dm : Bool
  reply_is_trigger : Bool
  group_mode : Option Bool
  export_txt : Bool
  export_json : Bool
deriving DecidableEq

/-- The fields of an inbound `MessageEvent` read by `is_bot_triggered`:
sender id, `content.relates_to["rel_type"]` (`none` when the message has no
relation), `content["msgtype"]`, the body, and the reply-target event id from
`content.get_reply_to()` (`none` when the message is not a reply). -/
structure MessageEvent where
  sender : String
  rel_type : Option String
  msgtype : String
  body : String
  reply_to : Option String
deriving DecidableEq

/-- The `trigger` property of `CAIBot` (`cai/cai.py`, lines 459-473):
an unloaded config (`None`) yields `""`; the literal token `{name}` is
replaced by the bot's own local part; the result is stripped and casefolded. -/
def trigger_property (casefold : String → String) (config_trigger : Option String)
    (bot_localpart : String) : String :=
  match config_trigger with
  | none => ""
  | some t =>
    let t := if t = "\x7bname\x7d" then bot_localpart else t
    casefold (pyStrip t)

/-- `CAIBot.is_user_allowed`: an empty allow-list admits everyone, otherwise
membership in the allow-list decides. -/
def is_user_allowed (allowed_users : List String) (user_id : String) : Bool :=
  if allowed_users = [] then true else allowed_users.contains user_id

/-- `CAIBot.is_bot_triggered` (`cai/cai.py`, lines 240-273) as a pure function.
`room_is_dm` is the awaited result of `_is_room_dm(event.room_id)` and
`reply_to_sender` is the sender of the fetched reply-target event (when the
message is a reply). `"m.replace"` is `RelationType.REPLACE` and `"m.text"` is
`MessageType.TEXT`. -/
def is_bot_triggered (casefold : String → String) (cfg : Config)
    (bot_mxid bot_localpart : String) (room_is_dm : Bool)
    (reply_to_sender : Option String) (ev : MessageEvent) : Bool :=
  if ev.sender = bot_mxid
      ∨ ev.rel_type = some "m.replace"
      ∨ ev.msgtype ≠ "m.text"
      ∨ is_user_allowed cfg.allowed_users ev.sender = false
      ∨ pyStartsWith ev.body "!" = true then
    false
  else if cfg.always_reply_in_dm = true ∧ room_is_dm = true then
    true
  else if pyIn (trigger_property casefold cfg.trigger bot_localpart).data
      (casefold ev.body).data then
    true
  else if cfg.reply_is_trigger = true ∧ reply_to_sender = some bot_mxid then
    true
  else
    false

/-- `CAIBot._handle_group_mode` (`cai/cai.py`, lines 120-130) as a pure
function. `group_mode` is the nullable boolean config value (`some true` = on,
`some false` = off, `none` = auto), `room_is_dm` the awaited
`_is_room_dm` result, and `group_mode_template` models
`self.config["group_mode_template"].format(username=..., text=...)`. -/
def _handle_group_mode (group_mode : Option Bool) (room_is_dm : Bool)
    (group_mode_template : String → String → String) (sender_localpart : String)
    (text : String) : String :=
  if group_mode = some true ∨ (group_mode = none ∧ room_is_dm = false) then
    group_mode_template sender_localpart text
  else
    text

/-- One row of the `rooms` table (`matrix_room_id` is the primary key). -/
structure RoomRow where
  matrix_room_id : String
  cai_character_id : String
  cai_chat_id : String
deriving DecidableEq

/-- `CAIBot._insert_room_chat`: `REPLACE INTO rooms ...` deletes any row with
the same primary key and inserts the new row. The table is modelled as a list
of rows. -/
def _insert_room_chat (db : List RoomRow) (room_id character_id chat_id : String) :
    List RoomRow :=
  { matrix_room_id := room_id, cai_character_id := character_id,
    cai_chat_id := chat_id } :: db.filter (fun r => r.matrix_room_id ≠ room_id)

/-- `CAIBot._get_chat_by_room`: `SELECT ... WHERE matrix_room_id = ?`, returning
`(cai_character_id, cai_chat_id)` of the matching row if one exists. -/
def _get_chat_by_room (db : List RoomRow) (room_id : String) :
    Option (String × String) :=
  match db.find? (fun r => r.matrix_room_id == room_id) with
  | some r => some (r.cai_character_id, r.cai_chat_id)
  | none => none

/-- Primary-key invariant of the `rooms` table: each room id matches at most
one row. -/
def at_most_one_session (db : List RoomRow) : Prop :=
  ∀ rid : String, (db.filter (fun r => r.matrix_room_id == rid)).length ≤ 1

/-- One reply candidate of an upstream turn. `raw_content` is `none` when the
key is absent (the upstream service stopped generation before any text, the
edge case documented in `cai/caimessage.py`). -/
structure Candidate where
  raw_content : Option String
deriving DecidableEq, Inhabited

/-- The author record of an upstream turn; the `is_human` key is absent
(`none`) for bots. -/
structure CAIAuthor where
  name : String
  is_human : Option Bool
deriving DecidableEq

/-- One turn of the upstream chat history (`data["turns"][i]`), with
`create_time` already parsed (`datetime.fromisoformat`) into an instant,
modelled as an `Int` (instants form a total order). -/
structure Turn where
  create_time : Int
  author : CAIAuthor
  candidates : List Candidate
deriving DecidableEq

/-- The transcript entity `CAIMessage` (`cai/caimessage.py`). -/
structure CAIMessage where
  create_time : Int
  author_name : String
  author_is_human : Bool
  content : String
deriving DecidableEq, Inhabited

/-- `CAIMessage.from_dict`: the first candidate in the list is used
(`data["candidates"][0]`, which presumes a nonempty candidate list; modelled
with `headI`), a missing `raw_content` key becomes `""`, and a missing
`is_human` key becomes `False`. -/
def CAIMessage.from_dict (data : Turn) : CAIMessage :=
  { create_time := data.create_time
    author_name := data.author.name
    author_is_human := data.author.is_human.getD false
    content := data.candidates.headI.raw_content.getD "" }

/-- The part of the upstream `send_message` response read by
`CAIBot.send_message_to_ai`: `data["turn"]["candidates"]`. -/
structure SendResponse where
  turn_candidates : List Candidate
deriving DecidableEq

/-- Reply extraction of `CAIBot.send_message_to_ai` (`cai/cai.py`, line 145):
`data["turn"]["candidates"][0]["raw_content"]`. A `none` result models the
Python exception raised by the direct index/key access (`IndexError` on an
empty candidate list, `KeyError` on a missing `raw_content` key). -/
def send_message_to_ai (data : SendResponse) : Option String :=
  match data.turn_candidates with
  | [] => none
  | c :: _ => c.raw_content

/-- `CAIBot.get_chat_history` (`cai/cai.py`, lines 162-170): map every
upstream turn through `CAIMessage.from_dict` and sort ascending by
`create_time` (Python's stable `sorted` with that key, modelled by the stable
`List.mergeSort`). -/
def get_chat_history (turns : List Turn) : List CAIMessage :=
  (turns.map CAIMessage.from_dict).mergeSort
    (fun a b => decide (a.create_time ≤ b.create_time))

/-- Raw bytes of an export file, or a zip archive of named entries (the
sequence of `zipfile.ZipFile.writestr` calls, in order). -/
inductive FileData where
  | bytes (s : String)
  | zipArchive (entries : List (String × FileData))

instance : Inhabited FileData := ⟨.bytes ""⟩

/-- The `ExportFile` dataclass (`cai/caimessage.py`). -/
structure ExportFile where
  file_extension : String
  mimetype : String
  data : FileData
deriving Inhabited

/-- The 60-character separator line `'='*60` of the text export header. -/
def sep_line : String := String.mk (List.replicate 60 '=')

/-- `history_to_txt` (`cai/caimessage.py`, lines 50-78): header block followed
by one block per message, concatenated in the order the source writes them.
`pretty` is `utils.pretty_utc_str` over parsed instants. The source indexes
`history[0]` and `history[-1]` (an `IndexError` on an empty history, which the
callers rule out); modelled with `headI`/`getLastI`. -/
def history_to_txt (pretty : Int → String) (history : List CAIMessage)
    (character_name character_id chat_id : String) : ExportFile :=
  let start_time_str := pretty history.headI.create_time
  let end_time_str := pretty history.getLastI.create_time
  let header :=
    "Character: " ++ character_name ++ " (" ++ character_id ++ ")\n" ++
    "Chat ID: " ++ chat_id ++ "\n" ++
    "Messages: " ++ toString history.length ++ "\n" ++
    start_time_str ++ " - " ++ end_time_str ++ "\n" ++
    sep_line ++ "\n\n"
  let body := String.join (history.map (fun msg =>
    (if msg.author_is_human then "You" else msg.author_name ++ " [bot]") ++
    " - " ++ pretty msg.create_time ++ "\n" ++ msg.content ++ "\n\n"))
  { file_extension := "txt", mimetype := "text/plain",
    data := .bytes (header ++ body) }

/-- The dictionary built by `CAIMessage.export_to_dict`. -/
structure ExportedMessage where
  create_time : String
  author_name : String
  author_is_human : Bool
  content : String
deriving DecidableEq

/-- `CAIMessage.export_to_dict` (`cai/caimessage.py`, lines 34-40). -/
def CAIMessage.export_to_dict (pretty : Int → String) (m : CAIMessage) :
    ExportedMessage :=
  { create_time := pretty m.create_time, author_name := m.author_name,
    author_is_human := m.author_is_human, content := m.content }

/-- The top-level dictionary built by `history_to_json` before `json.dumps`. -/
structure JsonExport where
  character_name : String
  character_id : String
  chat_id : String
  start_time : String
  end_time : String
  messages : List ExportedMessage
deriving DecidableEq

/-- `history_to_json` (`cai/caimessage.py`, lines 81-100). The `json.dumps`
serialization of the built dictionary is the external Python `json` library
and is passed as the abstract `dumps` parameter. -/
def history_to_json (pretty : Int → String) (dumps : JsonExport → String)
    (history : List CAIMessage)
    (character_name character_id chat_id : String) : ExportFile :=
  { file_extension := "json", mimetype := "application/json",
    data := .bytes (dumps
      { character_name := character_name, character_id := character_id,
        chat_id := chat_id,
        start_time := pretty history.headI.create_time,
        end_time := pretty history.getLastI.create_time,
        messages := history.map (CAIMessage.export_to_dict pretty) }) }

/-- The sanitized character name of `_handle_exports`:
`"".join(c for c in character_name.replace(" ", "_") if c.isalnum() or c == "_")`. -/
def safe_character_name (character_name : String) : String :=
  ⟨(character_name.data.map (fun c => if c = ' ' then '_' else c)).filter
    (fun c => c.isAlphanum || c == '_')⟩

/-- `CAIBot._handle_exports` (`cai/cai.py`, lines 285-341) as a pure function
of the fetched upstream history (`turns`), the character metadata and the
export time. It returns `none` when no export format is enabled, and otherwise
the uploaded file together with the file name passed to `client.send_file`.
The zip branch bundles the individual files as named archive entries
(`writestr` calls), the archive itself declared `application/zip` with file
extension `".zip"` (sic: with the leading dot, unlike `"txt"`/`"json"`). -/
def _handle_exports (pretty : Int → String) (dumps : JsonExport → String)
    (export_txt export_json : Bool) (turns : List Turn)
    (character_name character_id chat_id : String) (now : Int) :
    Option (String × ExportFile) :=
  let history := get_chat_history turns
  let safe := safe_character_name character_name
  let export_time_str := pretty now
  let files : List ExportFile :=
    (if export_txt then
      [history_to_txt pretty history character_name character_id chat_id]
    else []) ++
    (if export_json then
      [history_to_json pretty dumps history character_name character_id chat_id]
    else [])
  if files.isEmpty then
    none
  else
    let file :=
      if 1 < files.length then
        { file_extension := ".zip", mimetype := "application/zip",
          data := .zipArchive (files.map (fun f =>
            ("cai-" ++ safe ++ "-" ++ export_time_str ++ "." ++ f.file_extension,
              f.data))) }
      else
        files.headI
    some ("cai-" ++ safe ++ "-" ++ export_time_str ++ "." ++ file.file_extension,
      file)

/-- One lock/connection event performed by an upstream operation of `CAIBot`. -/
inductive GateAction where
  | acquire
  | release
  | upstream (op : String)
deriving DecidableEq

/-- Common shape of the four upstream operations of `cai/cai.py`: enter
`async with self._lock` (acquire the process-wide gate), enter
`async with self.cai_client.connect()` (start using the shared connection),
perform one API call on it, leave the connection block, and release the gate
when the lock block ends. -/
def locked_op_trace (op : String) : List GateAction :=
  [.acquire, .upstream "connect", .upstream op, .upstream "disconnect", .release]

/-- Action trace of `send_message_to_ai` (`cai/cai.py`, lines 132-145). -/
def send_message_to_ai_trace : List GateAction := locked_op_trace "send_message"

/-- Action trace of `create_ai_chat` (`cai/cai.py`, lines 147-160). -/
def create_ai_chat_trace : List GateAction := locked_op_trace "new_chat"

/-- Action trace of `get_chat_history` (`cai/cai.py`, lines 162-170). -/
def get_chat_history_trace : List GateAction := locked_op_trace "get_history"

/-- Action trace of `get_char_info` (`cai/cai.py`, lines 172-185). -/
def get_char_info_trace : List GateAction := locked_op_trace "get_chat"

/-- The four upstream API calls made under the gate. -/
def upstream_op_names : List String :=
  ["send_message", "new_chat", "get_history", "get_chat"]

/-- Scheduler state for concurrently dispatched event handlers: the current
owner of `self._lock` (an `asyncio.Lock` has at most one owner) and, per task,
the remaining actions of the upstream operation it is executing. -/
structure MuState where
  owner : Option Nat
  progs : List (List GateAction)

/-- Interleaving semantics: at each step some task runs its next action.
`acquire` succeeds only when the lock is free and makes the task the owner;
`release` is performed by the owner when its `async with` block ends; an
upstream/connection action is not itself guarded by the semantics — that every
such action in fact happens while holding the gate is what the invariant
proves, given the operations' traces. -/
inductive MuStep : MuState → MuState → Prop where
  | acquire {s : MuState} (i : Nat) {rest : List GateAction} :
      s.owner = none → s.progs[i]? = some (.acquire :: rest) →
      MuStep s ⟨some i, s.progs.set i rest⟩
  | release {s : MuState} (i : Nat) {rest : List GateAction} :
      s.owner = some i → s.progs[i]? = some (.release :: rest) →
      MuStep s ⟨none, s.progs.set i rest⟩
  | upstream {s : MuState} (i : Nat) (op : String) {rest : List GateAction} :
      s.progs[i]? = some (.upstream op :: rest) →
      MuStep s ⟨s.owner, s.progs.set i rest⟩

/-- Invariant of the scheduler: every task's remaining program is a suffix of
one of the four operation traces, and a task strictly inside its operation
(past the acquire, before the release) is the owner of the gate. -/
def MuInv (s : MuState) : Prop :=
  ∀ i p, s.progs[i]? = some p →
    ∃ op ∈ upstream_op_names, ∃ k, k ≤ 5 ∧ p = (locked_op_trace op).drop k ∧
      (1 ≤ k → k ≤ 4 → s.owner = some i)

/-- A task is mid-operation: it has performed its acquire and not yet its
release (the remaining suffix of the 5-action trace has length 1 to 4). -/
def in_flight (p : List GateAction) : Prop := 1 ≤ p.length ∧ p.length ≤ 4

lemma pyIn_nil (hay : List Char) : pyIn [] hay = true := by
  cases hay <;> simp [pyIn, List.isPrefixOf]

example : pyIn "bot".data "i am a Bot now".data = false := by decide

example : pyIn "bot".data "i am a bot now".data = true := by decide

example : pyStrip "  hi there\n" = "hi there" := by decide

/-- Claim C1: `is_bot_triggered` returns `false` whenever the sender is the
bot's own account, the message is an edit (relation type `m.replace`), the
message type is not plain text, the sender is not allowed by the allow-list
(an empty allow-list allowing every user), or the body starts with the command
prefix character `!` — in the last case even if the trigger substring is
present in the body (the body is universally quantified here, so in
particular bodies containing the trigger are covered). -/
theorem C1_never_respond_conditions (casefold : String → String) (cfg : Config)
    (bot_mxid bot_localpart : String) (room_is_dm : Bool)
    (reply_to_sender : Option String) (ev : MessageEvent)
    (h : ev.sender = bot_mxid ∨ ev.rel_type = some "m.replace"
        ∨ ev.msgtype ≠ "m.text"
        ∨ is_user_allowed cfg.allowed_users ev.sender = false
        ∨ pyStartsWith ev.body "!" = true) :
    is_bot_triggered casefold cfg bot_mxid bot_localpart room_is_dm reply_to_sender ev
      = false ∧
    ∀ u : String, is_user_allowed [] u = true := by
  refine ⟨?_, fun u => rfl⟩
  unfold is_bot_triggered
  rw [if_pos h]

/-- Witness for C1 at a concrete input: the body `"!cai new bot"` starts with
the command prefix and contains the configured trigger substring `"bot"`, yet
the evaluator returns `false`. -/
theorem C1_witness :
    is_bot_triggered (fun s => s)
      { trigger := some "bot", allowed_users := [], always_reply_in_dm := false,
        reply_is_trigger := false, group_mode := none, export_txt := false,
        export_json := false }
      "@cai:example.org" "cai" false none
      { sender := "@alice:example.org", rel_type := none, msgtype := "m.text",
        body := "!cai new bot", reply_to := none } = false ∧
    ∀ u : String, is_user_allowed [] u = true :=
  C1_never_respond_conditions (fun s => s)
    { trigger := some "bot", allowed_users := [], always_reply_in_dm := false,
      reply_is_trigger := false, group_mode := none, export_txt := false,
      export_json := false }
    "@cai:example.org" "cai" false none
    { sender := "@alice:example.org", rel_type := none, msgtype := "m.text",
      body := "!cai new bot", reply_to := none }
    (Or.inr (Or.inr (Or.inr (Or.inr (by decide)))))

/-- Claim C3: if the configured trigger resolves to the empty string, then for
every message not excluded by the never-respond conditions, `is_bot_triggered`
returns `true` regardless of the body's content. -/
theorem C3_empty_trigger_always_matches (casefold : String → String) (cfg : Config)
    (bot_mxid bot_localpart : String) (room_is_dm : Bool)
    (reply_to_sender : Option String) (ev : MessageEvent)
    (htrig : trigger_property casefold cfg.trigger bot_localpart = "")
    (h1 : ev.sender ≠ bot_mxid) (h2 : ev.rel_type ≠ some "m.replace")
    (h3 : ev.msgtype = "m.text")
    (h4 : is_user_allowed cfg.allowed_users ev.sender = true)
    (h5 : pyStartsWith ev.body "!" = false) :
    is_bot_triggered casefold cfg bot_mxid bot_localpart room_is_dm reply_to_sender ev
      = true := by
  have hp : pyIn (trigger_property casefold cfg.trigger bot_localpart).data
      (casefold ev.body).data = true := by
    rw [htrig]; exact pyIn_nil _
  unfold is_bot_triggered
  rw [if_neg (by simp [h1, h2, h3, h4, h5])]
  simp [hp]

/-- Witness for C3 at a concrete input: an unloaded trigger (`none`) resolves
to `""` and an ordinary eligible message is answered. -/
theorem C3_witness :
    is_bot_triggered (fun s => s)
      { trigger := none, allowed_users := [], always_reply_in_dm := false,
        reply_is_trigger := false, group_mode := none, export_txt := false,
        export_json := false }
      "@cai:example.org" "cai" false none
      { sender := "@alice:example.org", rel_type := none, msgtype := "m.text",
        body := "hello there", reply_to := none } = true :=
  C3_empty_trigger_always_matches (fun s => s)
    { trigger := none, allowed_users := [], always_reply_in_dm := false,
      reply_is_trigger := false, group_mode := none, export_txt := false,
      export_json := false }
    "@cai:example.org" "cai" false none
    { sender := "@alice:example.org", rel_type := none, msgtype := "m.text",
      body := "hello there", reply_to := none }
    rfl (by decide) (by decide) rfl rfl (by decide)

/-- Claim C9: the effective trigger is the trimmed, casefolded configured
value; the literal token `{name}` is substituted with the bot's own local part
(which is then likewise stripped and casefolded); an unset (`None`) trigger
behaves as the empty string (and the property is a total function, so it never
raises). -/
theorem C9_trigger_resolution (casefold : String → String) (bot_localpart t : String)
    (hne : t ≠ "\x7bname\x7d") :
    trigger_property casefold none bot_localpart = "" ∧
    trigger_property casefold (some t) bot_localpart = casefold (pyStrip t) ∧
    trigger_property casefold (some "\x7bname\x7d") bot_localpart
      = casefold (pyStrip bot_localpart) := by
  refine ⟨rfl, ?_, ?_⟩
  · simp [trigger_property, hne]
  · simp [trigger_property]

/-- Witness for C9 at a concrete input. -/
theorem C9_witness :
    trigger_property (fun s => s) none "cai" = "" ∧
    trigger_property (fun s => s) (some " Hey ") "cai"
      = (fun s : String => s) (pyStrip " Hey ") ∧
    trigger_property (fun s => s) (some "\x7bname\x7d") "cai"
      = (fun s : String => s) (pyStrip "cai") :=
  C9_trigger_resolution (fun s => s) "cai" " Hey " (by decide)

/-- Claim C8: the group-mode formatter rewrites the text through the template
exactly when the mode is on, or when the mode is auto and the room is not a
direct room; with mode off, or mode auto in a direct room, the text is
returned unchanged. -/
theorem C8_group_mode_formatter (room_is_dm : Bool)
    (tmpl : String → String → String) (u x : String) :
    _handle_group_mode (some true) room_is_dm tmpl u x = tmpl u x ∧
    _handle_group_mode none false tmpl u x = tmpl u x ∧
    _handle_group_mode (some false) room_is_dm tmpl u x = x ∧
    _handle_group_mode none true tmpl u x = x := by
  refine ⟨?_, ?_, ?_, ?_⟩ <;> simp [_handle_group_mode]

/-- Claim C2: `put` then `get` on the same room returns exactly the stored
pair; a second `put` for the same room fully replaces the first; and the
at-most-one-session-per-room invariant is preserved by `put`. -/
theorem C2_session_store (db : List RoomRow) (r c ch c2 ch2 : String)
    (hinv : at_most_one_session db) :
    _get_chat_by_room (_insert_room_chat db r c ch) r = some (c, ch) ∧
    _get_chat_by_room (_insert_room_chat (_insert_room_chat db r c2 ch2) r c ch) r
      = some (c, ch) ∧
    at_most_one_session (_insert_room_chat db r c ch) := by
  refine ⟨?_, ?_, ?_⟩
  · simp [_get_chat_by_room, _insert_room_chat, List.find?]
  · simp [_get_chat_by_room, _insert_room_chat, List.find?]
  · intro rid
    by_cases hrid : r = rid
    · subst hrid
      have hnil : (db.filter (fun x => x.matrix_room_id ≠ r)).filter
          (fun x => x.matrix_room_id == r) = [] := by
        rw [List.filter_eq_nil_iff]
        intro a ha
        have := List.of_mem_filter ha
        simp_all
      simp [_insert_room_chat, List.filter_cons, hnil]
    · have hsub : ((db.filter (fun x => x.matrix_room_id ≠ r)).filter
          (fun x => x.matrix_room_id == rid)).length
          ≤ (db.filter (fun x => x.matrix_room_id == rid)).length :=
        ((List.filter_sublist db).filter _).length_le
      have : (( { matrix_room_id := r, cai_character_id := c, cai_chat_id := ch :
            RoomRow } :: db.filter (fun x => x.matrix_room_id ≠ r)).filter
          (fun x => x.matrix_room_id == rid)).length
          = ((db.filter (fun x => x.matrix_room_id ≠ r)).filter
            (fun x => x.matrix_room_id == rid)).length := by
        rw [List.filter_cons]
        simp [hrid]
      rw [_insert_room_chat, this]
      exact le_trans hsub (hinv rid)

/-- Witness for C2 at a concrete store. -/
theorem C2_witness :
    _get_chat_by_room (_insert_room_chat [] "!r:x" "char1" "chat1") "!r:x"
      = some ("char1", "chat1") ∧
    _get_chat_by_room
      (_insert_room_chat (_insert_room_chat [] "!r:x" "char0" "chat0")
        "!r:x" "char1" "chat1") "!r:x" = some ("char1", "chat1") ∧
    at_most_one_session (_insert_room_chat [] "!r:x" "char1" "chat1") :=
  C2_session_store [] "!r:x" "char1" "chat1" "char0" "chat0"
    (fun rid => by simp)

lemma headI_mem_of_ne_nil {α : Type} [Inhabited α] {l : List α} (h : l ≠ []) :
    l.headI ∈ l := by
  cases l with
  | nil => exact absurd rfl h
  | cons a t => simp

lemma getLastI_eq_getLast {α : Type} [Inhabited α] (l : List α) (h : l ≠ []) :
    l.getLastI = l.getLast h := by
  rw [List.getLastI_eq_getLast?, List.getLast?_eq_getLast l h, Option.iget_some]

lemma getLastI_mem_of_ne_nil {α : Type} [Inhabited α] {l : List α} (h : l ≠ []) :
    l.getLastI ∈ l := by
  rw [getLastI_eq_getLast l h]
  exact List.getLast_mem h

lemma sorted_headI_le {l : List CAIMessage}
    (hs : List.Sorted (fun a b : CAIMessage => a.create_time ≤ b.create_time) l)
    {x : CAIMessage} (hx : x ∈ l) : l.headI.create_time ≤ x.create_time := by
  cases l with
  | nil => cases hx
  | cons a t =>
    rcases List.mem_cons.mp hx with rfl | hx'
    · simp
    · simpa using List.rel_of_sorted_cons hs x hx'

lemma sorted_le_getLastI {l : List CAIMessage}
    (hs : List.Sorted (fun a b : CAIMessage => a.create_time ≤ b.create_time) l)
    {x : CAIMessage} (hx : x ∈ l) : x.create_time ≤ l.getLastI.create_time := by
  induction l with
  | nil => cases hx
  | cons a t ih =>
    rcases eq_or_ne t [] with rfl | ht
    · rcases List.mem_cons.mp hx with rfl | hx'
      · simp [List.getLastI]
      · cases hx'
    · have hlast : (a :: t).getLastI = t.getLastI := by
        rw [getLastI_eq_getLast _ (List.cons_ne_nil a t), getLastI_eq_getLast t ht,
          List.getLast_cons ht]
      rw [hlast]
      rcases List.mem_cons.mp hx with rfl | hx'
      · exact List.rel_of_sorted_cons hs _ (getLastI_mem_of_ne_nil ht)
      · exact ih hs.of_cons hx'

/-- Claim C4 (code bug in the source): the spec requires that a primary reply
candidate without a content field yields `reply_text = ""`, but
`send_message_to_ai` indexes `["raw_content"]` directly, raising `KeyError`
(modelled as `none`) — while the repository's own history parser
(`CAIMessage.from_dict`) documents this exact upstream edge case and handles
it by substituting `""`. -/
theorem C4_missing_content_is_error :
    send_message_to_ai { turn_candidates := [{ raw_content := none }] } = none ∧
    (CAIMessage.from_dict
      { create_time := 0, author := { name := "Char", is_human := none },
        candidates := [{ raw_content := none }] }).content = "" :=
  ⟨rfl, rfl⟩

lemma get_chat_history_sorted (turns : List Turn) :
    List.Sorted (fun a b : CAIMessage => a.create_time ≤ b.create_time)
      (get_chat_history turns) := by
  have h := @List.sorted_mergeSort CAIMessage
    (fun a b : CAIMessage => decide (a.create_time ≤ b.create_time))
    (fun a b c hab hbc => by
      simp only [decide_eq_true_eq] at *; omega)
    (fun a b => by
      simp only [Bool.or_eq_true, decide_eq_true_eq]; omega)
    (turns.map CAIMessage.from_dict)
  exact h.imp (fun hab => by simpa using hab)

lemma get_chat_history_perm (turns : List Turn) :
    (get_chat_history turns).Perm (turns.map CAIMessage.from_dict) :=
  List.mergeSort_perm _ _

lemma get_chat_history_length (turns : List Turn) :
    (get_chat_history turns).length = turns.length := by
  rw [get_chat_history, (List.mergeSort_perm _ _).length_eq, List.length_map]

/-- Claim C5: for every upstream history, in whatever order the turns arrive,
`get_chat_history` returns a transcript sorted ascending by creation timestamp
with exactly one entry per upstream turn (a permutation of the mapped turns,
of equal length). -/
theorem C5_history_sorted_one_per_turn (turns : List Turn)
    (hwf : ∀ t ∈ turns, t.candidates ≠ []) :
    List.Sorted (fun a b : CAIMessage => a.create_time ≤ b.create_time)
      (get_chat_history turns) ∧
    (get_chat_history turns).Perm (turns.map CAIMessage.from_dict) ∧
    (get_chat_history turns).length = turns.length :=
  ⟨get_chat_history_sorted turns, get_chat_history_perm turns,
    get_chat_history_length turns⟩

/-- Witness for C5 at a concrete out-of-order two-turn history. -/
theorem C5_witness :
    List.Sorted (fun a b : CAIMessage => a.create_time ≤ b.create_time)
      (get_chat_history
        [{ create_time := 5, author := { name := "Char", is_human := none },
           candidates := [{ raw_content := some "hi" }] },
         { create_time := 3, author := { name := "me", is_human := some true },
           candidates := [{ raw_content := some "yo" }] }]) ∧
    (get_chat_history
        [{ create_time := 5, author := { name := "Char", is_human := none },
           candidates := [{ raw_content := some "hi" }] },
         { create_time := 3, author := { name := "me", is_human := some true },
           candidates := [{ raw_content := some "yo" }] }]).Perm
      ([{ create_time := 5, author := { name := "Char", is_human := none },
          candidates := [{ raw_content := some "hi" }] },
        { create_time := 3, author := { name := "me", is_human := some true },
          candidates := [{ raw_content := some "yo" }] }].map CAIMessage.from_dict) ∧
    (get_chat_history
        [{ create_time := 5, author := { name := "Char", is_human := none },
           candidates := [{ raw_content := some "hi" }] },
         { create_time := 3, author := { name := "me", is_human := some true },
           candidates := [{ raw_content := some "yo" }] }]).length = 2 :=
  C5_history_sorted_one_per_turn
    [{ create_time := 5, author := { name := "Char", is_human := none },
       candidates := [{ raw_content := some "hi" }] },
     { create_time := 3, author := { name := "me", is_human := some true },
       candidates := [{ raw_content := some "yo" }] }]
    (by decide)

/-- Claim C6: for every non-empty history, whatever order the upstream turns
arrive in, the text export of the gateway-sorted transcript has a header
timestamp line rendering exactly the minimum and the maximum of the message
creation timestamps (sorting is done by the gateway, `get_chat_history`,
before `history_to_txt` renders `history[0]` and `history[-1]`). -/
theorem C6_txt_header_min_max (pretty : Int → String) (turns : List Turn)
    (cn cid chid : String) (hne : turns ≠ [])
    (hwf : ∀ t ∈ turns, t.candidates ≠ []) :
    ∃ tmin tmax : Int, ∃ rest : String,
      tmin ∈ turns.map Turn.create_time ∧
      tmax ∈ turns.map Turn.create_time ∧
      (∀ x ∈ turns.map Turn.create_time, tmin ≤ x ∧ x ≤ tmax) ∧
      (history_to_txt pretty (get_chat_history turns) cn cid chid).data =
        FileData.bytes
          ("Character: " ++ cn ++ " (" ++ cid ++ ")\n" ++
           "Chat ID: " ++ chid ++ "\n" ++
           "Messages: " ++ toString (get_chat_history turns).length ++ "\n" ++
           pretty tmin ++ " - " ++ pretty tmax ++ "\n" ++
           sep_line ++ "\n\n" ++ rest) := by
  have hsorted := get_chat_history_sorted turns
  have hperm := get_chat_history_perm turns
  have hlen := get_chat_history_length turns
  have hhne : get_chat_history turns ≠ [] := by
    intro h0
    apply hne
    apply List.length_eq_zero.mp
    rw [← hlen, h0]
    rfl
  refine ⟨(get_chat_history turns).headI.create_time,
    (get_chat_history turns).getLastI.create_time,
    String.join ((get_chat_history turns).map (fun msg =>
      (if msg.author_is_human then "You" else msg.author_name ++ " [bot]") ++
      " - " ++ pretty msg.create_time ++ "\n" ++ msg.content ++ "\n\n")),
    ?_, ?_, ?_, ?_⟩
  · obtain ⟨t, htmem, hteq⟩ :=
      List.mem_map.mp (hperm.subset (headI_mem_of_ne_nil hhne))
    exact List.mem_map.mpr ⟨t, htmem, by rw [← hteq]; rfl⟩
  · obtain ⟨t, htmem, hteq⟩ :=
      List.mem_map.mp (hperm.subset (getLastI_mem_of_ne_nil hhne))
    exact List.mem_map.mpr ⟨t, htmem, by rw [← hteq]; rfl⟩
  · intro x hx
    obtain ⟨t, htmem, hteq⟩ := List.mem_map.mp hx
    have hmem : CAIMessage.from_dict t ∈ get_chat_history turns :=
      hperm.symm.subset (List.mem_map_of_mem CAIMessage.from_dict htmem)
    constructor
    · have := sorted_headI_le hsorted hmem
      rw [← hteq]
      exact this
    · have := sorted_le_getLastI hsorted hmem
      rw [← hteq]
      exact this
  · rfl

/-- Witness for C6 at a concrete out-of-order two-turn history. -/
theorem C6_witness :
    ∃ tmin tmax : Int, ∃ rest : String,
      tmin ∈ [{ create_time := 7, author := { name := "Char", is_human := none },
                candidates := [{ raw_content := some "late" }] },
              { create_time := 2, author := { name := "me", is_human := some true },
                candidates := [{ raw_content := some "early" }] }].map Turn.create_time ∧
      tmax ∈ [{ create_time := 7, author := { name := "Char", is_human := none },
                candidates := [{ raw_content := some "late" }] },
              { create_time := 2, author := { name := "me", is_human := some true },
                candidates := [{ raw_content := some "early" }] }].map Turn.create_time ∧
      (∀ x ∈ [{ create_time := 7, author := { name := "Char", is_human := none },
                candidates := [{ raw_content := some "late" }] },
              { create_time := 2, author := { name := "me", is_human := some true },
                candidates := [{ raw_content := some "early" }] }].map Turn.create_time,
        tmin ≤ x ∧ x ≤ tmax) ∧
      (history_to_txt (fun i => toString i)
        (get_chat_history
          [{ create_time := 7, author := { name := "Char", is_human := none },
             candidates := [{ raw_content := some "late" }] },
           { create_time := 2, author := { name := "me", is_human := some true },
             candidates := [{ raw_content := some "early" }] }])
        "Char" "c1" "chat9").data =
        FileData.bytes
          ("Character: " ++ "Char" ++ " (" ++ "c1" ++ ")\n" ++
           "Chat ID: " ++ "chat9" ++ "\n" ++
           "Messages: " ++ toString (get_chat_history
             [{ create_time := 7, author := { name := "Char", is_human := none },
                candidates := [{ raw_content := some "late" }] },
              { create_time := 2, author := { name := "me", is_human := some true },
                candidates := [{ raw_content := some "early" }] }]).length ++ "\n" ++
           (fun i : Int => toString i) tmin ++ " - " ++
           (fun i : Int => toString i) tmax ++ "\n" ++
           sep_line ++ "\n\n" ++ rest) :=
  C6_txt_header_min_max (fun i => toString i)
    [{ create_time := 7, author := { name := "Char", is_human := none },
       candidates := [{ raw_content := some "late" }] },
     { create_time := 2, author := { name := "me", is_human := some true },
       candidates := [{ raw_content := some "early" }] }]
    "Char" "c1" "chat9" (by decide) (by decide)

/-- Claim C7: with zero export formats enabled `_handle_exports` produces no
file; with exactly one format enabled it produces that single file as-is, with
its own extension and mime type and no bundling; with both text and json
enabled it produces exactly one zip archive containing exactly two entries,
one per format, each entry named with the sanitized character name, the
formatted export timestamp and that format's own extension. -/
theorem C7_export_bundling (pretty : Int → String) (dumps : JsonExport → String)
    (turns : List Turn) (cn cid chid : String) (now : Int)
    (hne : turns ≠ []) :
    _handle_exports pretty dumps false false turns cn cid chid now = none ∧
    _handle_exports pretty dumps true false turns cn cid chid now =
      some ("cai-" ++ safe_character_name cn ++ "-" ++ pretty now ++ "." ++ "txt",
        history_to_txt pretty (get_chat_history turns) cn cid chid) ∧
    _handle_exports pretty dumps false true turns cn cid chid now =
      some ("cai-" ++ safe_character_name cn ++ "-" ++ pretty now ++ "." ++ "json",
        history_to_json pretty dumps (get_chat_history turns) cn cid chid) ∧
    _handle_exports pretty dumps true true turns cn cid chid now =
      some ("cai-" ++ safe_character_name cn ++ "-" ++ pretty now ++ "." ++ ".zip",
        { file_extension := ".zip", mimetype := "application/zip",
          data := .zipArchive
            [("cai-" ++ safe_character_name cn ++ "-" ++ pretty now ++ "." ++ "txt",
               (history_to_txt pretty (get_chat_history turns) cn cid chid).data),
             ("cai-" ++ safe_character_name cn ++ "-" ++ pretty now ++ "." ++ "json",
               (history_to_json pretty dumps (get_chat_history turns) cn cid chid).data)] }) :=
  ⟨rfl, rfl, rfl, rfl⟩

/-- Witness for C7 at a concrete one-turn history, showing the bundled-archive
case of the claim. -/
theorem C7_witness :
    _handle_exports (fun i => toString i) (fun _ => "json-data") true true
      [{ create_time := 4, author := { name := "My Char", is_human := none },
         candidates := [{ raw_content := some "hello" }] }]
      "My Char" "c1" "chat9" 10 =
      some ("cai-" ++ safe_character_name "My Char" ++ "-" ++
          (fun i : Int => toString i) 10 ++ "." ++ ".zip",
        { file_extension := ".zip", mimetype := "application/zip",
          data := .zipArchive
            [("cai-" ++ safe_character_name "My Char" ++ "-" ++
                (fun i : Int => toString i) 10 ++ "." ++ "txt",
               (history_to_txt (fun i => toString i)
                 (get_chat_history
                   [{ create_time := 4, author := { name := "My Char", is_human := none },
                      candidates := [{ raw_content := some "hello" }] }])
                 "My Char" "c1" "chat9").data),
             ("cai-" ++ safe_character_name "My Char" ++ "-" ++
                (fun i : Int => toString i) 10 ++ "." ++ "json",
               (history_to_json (fun i => toString i) (fun _ => "json-data")
                 (get_chat_history
                   [{ create_time := 4, author := { name := "My Char", is_human := none },
                      candidates := [{ raw_content := some "hello" }] }])
                 "My Char" "c1" "chat9").data)] }) :=
  (C7_export_bundling (fun i => toString i) (fun _ => "json-data")
    [{ create_time := 4, author := { name := "My Char", is_human := none },
       candidates := [{ raw_content := some "hello" }] }]
    "My Char" "c1" "chat9" 10 (by decide)).2.2.2

lemma getElem?_some_lt_length {α : Type} {l : List α} {i : Nat} {a : α}
    (h : l[i]? = some a) : i < l.length := by
  by_contra hge
  rw [List.getElem?_eq_none (Nat.le_of_not_lt hge)] at h
  exact Option.noConfusion h

lemma drop_acquire_cons {op : String} {k : Nat} {r : List GateAction}
    (hk : k ≤ 5) (h : (locked_op_trace op).drop k = .acquire :: r) :
    k = 0 ∧ r = (locked_op_trace op).drop 1 := by
  interval_cases k <;> simp_all [locked_op_trace]

lemma drop_release_cons {op : String} {k : Nat} {r : List GateAction}
    (hk : k ≤ 5) (h : (locked_op_trace op).drop k = .release :: r) :
    k = 4 ∧ r = [] := by
  interval_cases k <;> simp_all [locked_op_trace]

lemma drop_upstream_cons {op nm : String} {k : Nat} {r : List GateAction}
    (hk : k ≤ 5) (h : (locked_op_trace op).drop k = .upstream nm :: r) :
    (k = 1 ∨ k = 2 ∨ k = 3) ∧ r = (locked_op_trace op).drop (k + 1) := by
  interval_cases k <;> simp_all [locked_op_trace]

lemma MuInv_step {s s2 : MuState} (hinv : MuInv s) (hstep : MuStep s s2) :
    MuInv s2 := by
  cases hstep with
  | acquire i hown hget =>
    intro j p hj
    have hilen : i < s.progs.length := getElem?_some_lt_length hget
    by_cases hij : i = j
    · subst hij
      rw [List.getElem?_set_self hilen] at hj
      obtain rfl : _ = p := Option.some.inj hj
      obtain ⟨op, hop, k, hk, hdrop, hcond⟩ := hinv i _ hget
      obtain ⟨hk0, hrest⟩ := drop_acquire_cons hk hdrop.symm
      exact ⟨op, hop, 1, by omega, hrest, fun _ _ => rfl⟩
    · rw [List.getElem?_set_ne hij] at hj
      obtain ⟨op, hop, k, hk, hdrop, hcond⟩ := hinv j p hj
      refine ⟨op, hop, k, hk, hdrop, fun h1 h4 => ?_⟩
      have hcontra := hcond h1 h4
      rw [hown] at hcontra
      exact Option.noConfusion hcontra
  | release i hown hget =>
    intro j p hj
    have hilen : i < s.progs.length := getElem?_some_lt_length hget
    by_cases hij : i = j
    · subst hij
      rw [List.getElem?_set_self hilen] at hj
      obtain rfl : _ = p := Option.some.inj hj
      obtain ⟨op, hop, k, hk, hdrop, hcond⟩ := hinv i _ hget
      obtain ⟨hk4, hrest⟩ := drop_release_cons hk hdrop.symm
      refine ⟨op, hop, 5, by omega, ?_, fun h1 h4 => absurd h4 (by omega)⟩
      rw [hrest]
      simp [locked_op_trace]
    · rw [List.getElem?_set_ne hij] at hj
      obtain ⟨op, hop, k, hk, hdrop, hcond⟩ := hinv j p hj
      refine ⟨op, hop, k, hk, hdrop, fun h1 h4 => ?_⟩
      have hjown := hcond h1 h4
      rw [hown] at hjown
      exact absurd (Option.some.inj hjown) hij
  | upstream i op0 hget =>
    intro j p hj
    have hilen : i < s.progs.length := getElem?_some_lt_length hget
    by_cases hij : i = j
    · subst hij
      rw [List.getElem?_set_self hilen] at hj
      obtain rfl : _ = p := Option.some.inj hj
      obtain ⟨op, hop, k, hk, hdrop, hcond⟩ := hinv i _ hget
      obtain ⟨hk123, hrest⟩ := drop_upstream_cons hk hdrop.symm
      have hkb : 1 ≤ k ∧ k ≤ 3 := by rcases hk123 with rfl | rfl | rfl <;> omega
      refine ⟨op, hop, k + 1, by omega, hrest, fun _ _ => ?_⟩
      exact hcond (by omega) (by omega)
    · rw [List.getElem?_set_ne hij] at hj
      obtain ⟨op, hop, k, hk, hdrop, hcond⟩ := hinv j p hj
      exact ⟨op, hop, k, hk, hdrop, fun h1 h4 => hcond h1 h4⟩

lemma MuInv_init (progs : List (List GateAction))
    (hvalid : ∀ p ∈ progs,
      p = send_message_to_ai_trace ∨ p = create_ai_chat_trace
        ∨ p = get_chat_history_trace ∨ p = get_char_info_trace) :
    MuInv ⟨none, progs⟩ := by
  intro i p hp
  have hmem := List.getElem?_mem hp
  have hop : ∃ op ∈ upstream_op_names, p = locked_op_trace op := by
    rcases hvalid p hmem with rfl | rfl | rfl | rfl
    · exact ⟨"send_message", by simp [upstream_op_names], rfl⟩
    · exact ⟨"new_chat", by simp [upstream_op_names], rfl⟩
    · exact ⟨"get_history", by simp [upstream_op_names], rfl⟩
    · exact ⟨"get_chat", by simp [upstream_op_names], rfl⟩
  obtain ⟨op, hopmem, rfl⟩ := hop
  exact ⟨op, hopmem, 0, by omega, rfl, fun h1 _ => absurd h1 (by omega)⟩

lemma MuInv_reachable {init s : MuState} (h0 : MuInv init)
    (hreach : Relation.ReflTransGen MuStep init s) : MuInv s := by
  induction hreach with
  | refl => exact h0
  | tail _ hbc ih => exact MuInv_step ih hbc

/-- Claim C10: when every concurrently dispatched task runs one of the four
upstream operations (`send_message_to_ai`, `create_ai_chat`,
`get_chat_history`, `get_char_info`), then in every reachable scheduler state
at most one task is mid-operation (mutual exclusion through the single
process-wide gate), and each operation's trace acquires the gate as its very
first action (before touching the shared connection), releases it as its last,
and performs only upstream/connection actions in between — in particular it
never re-acquires the gate while already holding it. -/
theorem C10_upstream_serialized
    (progs : List (List GateAction))
    (hvalid : ∀ p ∈ progs,
      p = send_message_to_ai_trace ∨ p = create_ai_chat_trace
        ∨ p = get_chat_history_trace ∨ p = get_char_info_trace)
    (s : MuState)
    (hreach : Relation.ReflTransGen MuStep ⟨none, progs⟩ s)
    (i j : Nat) (pa pb : List GateAction)
    (hi : s.progs[i]? = some pa) (hj : s.progs[j]? = some pb)
    (hfi : in_flight pa) (hfj : in_flight pb) :
    i = j ∧
    ∀ op ∈ upstream_op_names,
      (locked_op_trace op).head? = some .acquire ∧
      (locked_op_trace op).getLast? = some .release ∧
      ∀ a ∈ ((locked_op_trace op).drop 1).dropLast, ∃ nm, a = .upstream nm := by
  have hinv := MuInv_reachable (MuInv_init progs hvalid) hreach
  constructor
  · obtain ⟨hfi1, hfi2⟩ := hfi
    obtain ⟨hfj1, hfj2⟩ := hfj
    obtain ⟨opi, _, ki, hki, hpi, howni⟩ := hinv i pa hi
    obtain ⟨opj, _, kj, hkj, hpj, hownj⟩ := hinv j pb hj
    have hli : pa.length = 5 - ki := by
      rw [hpi, List.length_drop]
      simp [locked_op_trace]
    have hlj : pb.length = 5 - kj := by
      rw [hpj, List.length_drop]
      simp [locked_op_trace]
    have h1 : s.owner = some i := howni (by omega) (by omega)
    have h2 : s.owner = some j := hownj (by omega) (by omega)
    rw [h1] at h2
    exact Option.some.inj h2
  · intro op hop
    fin_cases hop <;>
      exact ⟨by decide, by decide, by intro a ha; fin_cases ha <;> exact ⟨_, rfl⟩⟩

/-- Witness for C10: a single task running `send_message_to_ai` has performed
its acquire (one scheduler step from the initial state) and is mid-operation;
the mutual-exclusion and trace-shape conclusions hold there. -/
theorem C10_witness :
    (0 : Nat) = 0 ∧
    ∀ op ∈ upstream_op_names,
      (locked_op_trace op).head? = some .acquire ∧
      (locked_op_trace op).getLast? = some .release ∧
      ∀ a ∈ ((locked_op_trace op).drop 1).dropLast, ∃ nm, a = .upstream nm :=
  C10_upstream_serialized [send_message_to_ai_trace]
    (by decide)
    ⟨some 0, [[.upstream "connect", .upstream "send_message",
      .upstream "disconnect", .release]]⟩
    (Relation.ReflTransGen.single (MuStep.acquire 0 rfl rfl))
    0 0
    [.upstream "connect", .upstream "send_message", .upstream "disconnect",
      .release]
    [.upstream "connect", .upstream "send_message", .upstream "disconnect",
      .release]
    rfl rfl ⟨by decide, by decide⟩ ⟨by decide, by decide⟩
